import Mathlib

/-!
Verification development for the liftie Whiteface resort parser
(src/lib/resorts/whiteface/index.js, with the two earlier revisions of the
same module as related sources).

The JavaScript module is shallowly embedded:
* the htmlparser2 DOM is the inductive type `Node` (tag nodes with an
  attribute association list and children, and text nodes);
* the external `select` CSS helper is modelled at its interface as
  class-token / tag-name selection over the subtree;
* the external `domutil.allText` helper is modelled as concatenation of all
  descendant text, and JavaScript `String.prototype.trim` as stripping of
  leading/trailing whitespace characters;
* clock reads (`Date.now()`, the America/New_York civil hour computed as
  `getHours() + getMinutes() / 60`) and the `Math.random()` draw are explicit
  rational-number parameters;
* the module-level mutable variables form the structure `FetchState`, which
  is threaded explicitly;
* the Puppeteer retrieval and the promise chain of `parse` are driven by an
  explicit environment: the outcome of the retrieval attempt (rendered
  content, or one of the absorbed failure modes), and whether the `.then`
  handler threw (taking the `.catch` branch).
-/

namespace Liftie

/-! ## DOM model (htmlparser2 nodes, as consumed by the module) -/

inductive Node where
  | tag (name : String) (attribs : List (String × String)) (children : List Node)
  | text (s : String)

def Node.isTag : Node → Bool
  | .tag _ _ _ => true
  | .text _ => false

def Node.childList : Node → List Node
  | .tag _ _ ch => ch
  | .text _ => []

/-- Attribute lookup (`node.attribs?.k`). -/
def Node.attr : Node → String → Option String
  | .tag _ ats _, k => List.lookup k ats
  | .text _, _ => none

/-- `node.attribs?.class || ''`. -/
def Node.classAttr (n : Node) : String := (n.attr "class").getD ""

/-- JavaScript `String.prototype.includes`: substring containment. -/
def strContains (s pat : String) : Bool := decide (pat.toList <:+: s.toList)

/-- Split a character list on single spaces (class attribute tokenization,
modelling the external CSS-select collaborator's class matching). -/
def tokenSplit : List Char → List Char → List (List Char)
  | [], acc => [acc.reverse]
  | c :: cs, acc =>
    if c = ' ' then acc.reverse :: tokenSplit cs [] else tokenSplit cs (c :: acc)

/-- Whether a class attribute value contains `cls` as a whitespace-separated
token (CSS `.cls` selector semantics of the external select helper). -/
def hasClassToken (className cls : String) : Bool :=
  (tokenSplit className.toList []).contains cls.toList

mutual
/-- Modelled interface of the external `select(dom, '.cls')` helper:
all tag nodes in the subtree whose class attribute has token `cls`. -/
def selectClass (cls : String) : Node → List Node
  | Node.text _ => []
  | Node.tag nm ats ch =>
    (if hasClassToken ((Node.tag nm ats ch).classAttr) cls
      then [Node.tag nm ats ch] else []) ++ selectClassList cls ch

def selectClassList (cls : String) : List Node → List Node
  | [] => []
  | n :: ns => selectClass cls n ++ selectClassList cls ns
end

mutual
/-- Modelled interface of the external `select(dom, 'name')` helper:
all tag nodes in the subtree with the given tag name. -/
def selectTag (t : String) : Node → List Node
  | Node.text _ => []
  | Node.tag nm ats ch =>
    (if nm = t then [Node.tag nm ats ch] else []) ++ selectTagList t ch

def selectTagList (t : String) : List Node → List Node
  | [] => []
  | n :: ns => selectTag t n ++ selectTagList t ns
end

mutual
/-- Modelled interface of the external `domutil.allText` helper:
concatenated text of all descendant text nodes. -/
def allText : Node → String
  | Node.text s => s
  | Node.tag _ _ ch => allTextList ch

def allTextList : List Node → String
  | [] => ""
  | n :: ns => allText n ++ allTextList ns
end

/-- Whitespace as stripped by JavaScript string trim (common characters). -/
def isWhitespaceChar (c : Char) : Bool :=
  c = ' ' ∨ c = '\t' ∨ c = '\n' ∨ c = '\r'

/-- Model of JavaScript `String.prototype.trim`. -/
def jsTrim (s : String) : String :=
  String.mk (((s.toList.dropWhile isWhitespaceChar).reverse.dropWhile
    isWhitespaceChar).reverse)

/-! ## The regex `/icon-(.+)\.svg/` (first match, capture group 1)

JavaScript regex semantics: the match starts at the leftmost position where
the whole regex matches; at that position `(.+)` is greedy with backtracking,
i.e. the longest capture (no newline characters, at least one character) such
that `.svg` follows. -/

def noNewline (cs : List Char) : Bool := cs.all (fun c => c ≠ '\n')

/-- Backtracking for the greedy `(.+)\.svg` suffix: try capture lengths from
`k` downward, returning the first (longest) length whose capture has no
newline and is followed by the literal `.svg`. -/
def tryCapture (rest : List Char) : Nat → Option (List Char)
  | 0 => none
  | k + 1 =>
    if noNewline (rest.take (k + 1)) && (".svg".toList.isPrefixOf (rest.drop (k + 1)))
      then some (rest.take (k + 1))
      else tryCapture rest k

/-- Leftmost match of `/icon-(.+)\.svg/`, returning capture group 1. -/
def matchIconSvg : List Char → Option (List Char)
  | [] => none
  | c :: cs =>
    if "icon-".toList.isPrefixOf (c :: cs) then
      match tryCapture ((c :: cs).drop 5) ((c :: cs).drop 5).length with
      | some cap => some cap
      | none => matchIconSvg cs
    else matchIconSvg cs

/-- `src.match(/icon-(.+)\.svg/)` reduced to its capture group. -/
def iconStatus (src : String) : Option String :=
  (matchIconSvg src.toList).map fun cs => String.mk cs

/-! ## Extractor (`parseLifts`, index.js lines 65-103) -/

/-- Name/status fields accumulated while scanning one row's children. -/
structure RowFields where
  name : Option String
  status : Option String
deriving DecidableEq

/-- The body of the `for (const child of children)` loop of `parseLifts`:
a child whose class contains `title`/`lift-name` supplies the name (all
descendant text, trimmed); a child whose class contains `status`/`lift-icon`
supplies the status from the first `img` descendant's `src`, if the
`icon-(.+).svg` pattern matches (a non-match leaves the field untouched).
`img?.attribs?.src` is truthy only for a present, non-empty `src`. -/
def scanChild (acc : RowFields) (child : Node) : RowFields :=
  let className := child.classAttr
  let acc1 :=
    if strContains className "title" || strContains className "lift-name"
      then { acc with name := some (jsTrim (allText child)) }
      else acc
  if strContains className "status" || strContains className "lift-icon" then
    match (selectTag "img" child).head? with
    | some img =>
      match img.attr "src" with
      | some src =>
        if src = "" then acc1
        else
          match iconStatus src with
          | some st => { acc1 with status := some st }
          | none => acc1
      | none => acc1
    | none => acc1
  else acc1

/-- One row of `parseLifts`: scan the tag children; the row yields a pair
only when `name && status` is truthy (both present and non-empty). -/
def extractRow (row : Node) : Option (String × String) :=
  let children := row.childList.filter Node.isTag
  let f := children.foldl scanChild ⟨none, none⟩
  match f.name, f.status with
  | some n, some s => if n = "" ∨ s = "" then none else some (n, s)
  | _, _ => none

/-- JavaScript object assignment `ls[name] = status`: replace the value of an
existing key in place, or append a new key at the end. -/
def lsInsert (ls : List (String × String)) (k v : String) : List (String × String) :=
  if ls.any (fun p => p.1 = k)
    then ls.map (fun p => if p.1 = k then (p.1, v) else p)
    else ls ++ [(k, v)]

/-- The `rows.forEach` step of `parseLifts`. -/
def processRow (ls : List (String × String)) (row : Node) : List (String × String) :=
  match extractRow row with
  | some (n, s) => lsInsert ls n s
  | none => ls

/-- `parseLifts(dom)`: select the `.lifts-row` elements and accumulate the
status map over them. -/
def parseLifts (dom : Node) : List (String × String) :=
  (selectClass "lifts-row" dom).foldl processRow []

/-! ## Scheduler / rate limiter state (index.js lines 11-56)

Times are rationals (milliseconds since epoch); the civil New York hour is a
rational (`getHours() + getMinutes() / 60`); the `Math.random()` draw is a
rational in `[0, 1)`. -/

def ACTIVE_MIN_INTERVAL : ℚ := 5 * 60 * 1000
def ACTIVE_MAX_INTERVAL : ℚ := 15 * 60 * 1000
def INACTIVE_MIN_INTERVAL : ℚ := 30 * 60 * 1000
def INACTIVE_MAX_INTERVAL : ℚ := 60 * 60 * 1000
def ACTIVITY_THRESHOLD : ℚ := 5 * 60 * 1000

def OPEN_HOUR : ℚ := 31 / 4
def CLOSE_HOUR : ℚ := 35 / 2

/-- The module-level mutable variables of index.js (lines 22-25). -/
structure FetchState where
  lastFetchTime : ℚ
  lastRequestTime : ℚ
  cachedStatus : List (String × String)
  nextFetchInterval : ℚ
deriving DecidableEq

/-- `getRandomInterval(isActive)`, with the `Math.random()` draw `r` made
explicit: `min + r * (max - min)`. -/
def getRandomInterval (isActive : Bool) (r : ℚ) : ℚ :=
  let mn := if isActive then ACTIVE_MIN_INTERVAL else INACTIVE_MIN_INTERVAL
  let mx := if isActive then ACTIVE_MAX_INTERVAL else INACTIVE_MAX_INTERVAL
  mn + r * (mx - mn)

/-- `isWithinOperatingHours()`, over the civil New York hour
(`getHours() + getMinutes() / 60`). -/
def isWithinOperatingHours (nyHour : ℚ) : Bool :=
  decide (OPEN_HOUR ≤ nyHour) && decide (nyHour < CLOSE_HOUR)

/-- `isUserActive()` at clock reading `now`. -/
def isUserActive (now : ℚ) (st : FetchState) : Bool :=
  decide (now - st.lastRequestTime < ACTIVITY_THRESHOLD)

/-- `shouldFetch()` at clock reading `now` and New York civil hour `nyHour`. -/
def shouldFetch (now nyHour : ℚ) (st : FetchState) : Bool :=
  if st.lastFetchTime = 0 then true
  else if now - st.lastFetchTime < st.nextFetchInterval then false
  else if !isWithinOperatingHours nyHour then false
  else true

/-- Initial state at module load (lines 22-25): `nextFetchInterval` is
immediately drawn with `isActive = false`. -/
def initialState (r : ℚ) : FetchState :=
  { lastFetchTime := 0, lastRequestTime := 0, cachedStatus := [],
    nextFetchInterval := getRandomInterval false r }

/-! ## Retriever and entry point (index.js lines 108-189) -/

/-- Outcome of one Puppeteer session: rendered content (already parsed by
`parseDocument`, an external collaborator), or one of the absorbed failure
modes (browser launch failure, navigation error, landmark-selector wait
timeout). -/
inductive PuppeteerOutcome where
  | content (dom : Node)
  | launchFailure
  | navigationError
  | waitTimeout

/-- `fetchWithPuppeteer()`: every failure mode is caught and absorbed to
`null`; success returns the page content. -/
def fetchWithPuppeteer : PuppeteerOutcome → Option Node
  | .content d => some d
  | .launchFailure => none
  | .navigationError => none
  | .waitTimeout => none

/-- How the promise chain of `parse` completes: the promise resolved with the
retrieval outcome, or the `.then` handler threw (the `.catch` branch). -/
inductive FetchEvent where
  | resolved (o : PuppeteerOutcome)
  | thrown

/-- Environment of one `parse` call: `Date.now()` at entry, the New York
civil hour when `shouldFetch` runs, the completion event of the retrieval,
`Date.now()` inside the `.then`/`.catch` handler, and the `Math.random()`
draw of the handler's `getRandomInterval` call. -/
structure Env where
  now : ℚ
  nyHour : ℚ
  event : FetchEvent
  endTime : ℚ
  r : ℚ

/-- Result of one `parse` call: the value delivered to the caller, the final
module state, and whether the retrieval path ran. -/
structure ParseResult where
  value : List (String × String)
  state : FetchState
  fetched : Bool

/-- The `.then(html => ...)` handler (lines 167-182): update timing first,
then either fall back to the cache (null html) or extract and overwrite the
cache. -/
def thenHandler (st : FetchState) (env : Env) (html : Option Node) : ParseResult :=
  let st1 := { st with
    lastFetchTime := env.endTime
    nextFetchInterval := getRandomInterval (isUserActive env.endTime st) env.r }
  match html with
  | none => { value := st1.cachedStatus, state := st1, fetched := true }
  | some d =>
    let ls := parseLifts d
    { value := ls, state := { st1 with cachedStatus := ls }, fetched := true }

/-- The `.catch(err => ...)` handler (lines 183-188): update timing, return
the cache. -/
def catchHandler (st : FetchState) (env : Env) : ParseResult :=
  let st1 := { st with
    lastFetchTime := env.endTime
    nextFetchInterval := getRandomInterval (isUserActive env.endTime st) env.r }
  { value := st1.cachedStatus, state := st1, fetched := true }

/-- The promise chain `fetchWithPuppeteer().then(...).catch(...)`. -/
def runFetch (st : FetchState) (env : Env) : ParseResult :=
  match env.event with
  | FetchEvent.resolved o => thenHandler st env (fetchWithPuppeteer o)
  | FetchEvent.thrown => catchHandler st env

/-- The entry point `parse(dom)` (lines 143-189): record the request time,
serve the provided DOM synchronously when it has `.lifts-row` elements,
otherwise consult `shouldFetch` and either serve the cache or run the
retrieval chain. -/
def parse (dom : Node) (st0 : FetchState) (env : Env) : ParseResult :=
  let st := { st0 with lastRequestTime := env.now }
  if 0 < (selectClass "lifts-row" dom).length then
    { value := parseLifts dom, state := st, fetched := false }
  else if !shouldFetch env.now env.nyHour st then
    { value := st.cachedStatus, state := st, fetched := false }
  else runFetch st env

/-! ## Earlier revision (src/unnamed/part_000): `fetchWithChromeUA`

That revision's module state has no `lastRequestTime`; its
`getRandomInterval` has fixed 5-15 minute bounds; its extraction helper
`domutil.collect` is an external collaborator, passed as a function. -/

def MIN_FETCH_INTERVAL : ℚ := 5 * 60 * 1000
def MAX_FETCH_INTERVAL : ℚ := 15 * 60 * 1000

def getRandomIntervalV0 (r : ℚ) : ℚ :=
  MIN_FETCH_INTERVAL + r * (MAX_FETCH_INTERVAL - MIN_FETCH_INTERVAL)

/-- Module state of the part_000 revision (lines 33-35). -/
structure FetchStateV0 where
  lastFetchTime : ℚ
  cachedStatus : List (String × String)
  nextFetchInterval : ℚ
deriving DecidableEq

/-- How the `fetch(...)` promise of part_000 completes: an HTTP response
(status and body, the body already parsed by `parseDocument`), or a
transport error / exception (the `.catch` branch). -/
inductive HttpEvent where
  | response (status : ℤ) (dom : Node)
  | exception

/-- The error-first callback result `fn(err, value)`. -/
structure CallbackResult where
  err : Option String
  value : List (String × String)
deriving DecidableEq

/-- `fetchWithChromeUA(fn)` from part_000 (lines 119-157): on response,
update timing, treat non-2xx as failure returning the cache; on success
extract (via the external `collect` helper) and overwrite the cache; on
exception, update timing and return the cache. The callback error slot is
always `null`. -/
def fetchWithChromeUA (st : FetchStateV0) (ev : HttpEvent) (endTime r : ℚ)
    (collect : Node → List (String × String)) : CallbackResult × FetchStateV0 :=
  match ev with
  | HttpEvent.response status dom =>
    let st1 := { st with
      lastFetchTime := endTime
      nextFetchInterval := getRandomIntervalV0 r }
    if status < 200 ∨ 300 ≤ status then
      ({ err := none, value := st1.cachedStatus }, st1)
    else
      let liftStatus := collect dom
      ({ err := none, value := liftStatus }, { st1 with cachedStatus := liftStatus })
  | HttpEvent.exception =>
    let st1 := { st with
      lastFetchTime := endTime
      nextFetchInterval := getRandomIntervalV0 r }
    ({ err := none, value := st1.cachedStatus }, st1)

/-! ## Canonical documents in the two known markup shapes

The doc comment of `parseLifts` (index.js lines 58-64) describes the two
shapes: the old rule-based 4-column row `[type, name, status icon, time]`
(classes `lift-name` / `lift-icon`) and the new 2-column row
`[name, status icon]` (classes containing `title` / `status`). -/

/-- One lift in the old 4-column markup shape. -/
def oldShapeRow (nm st : String) : Node :=
  Node.tag "div" [("class", "conditions-data-row lifts-row")]
    [ Node.tag "div" [("class", "lift-type")] [Node.text "Quad"],
      Node.tag "div" [("class", "lift-name")] [Node.text nm],
      Node.tag "div" [("class", "lift-icon")]
        [ Node.tag "img" [("src", "icon-" ++ st ++ ".svg")] [] ],
      Node.tag "div" [("class", "lift-time")] [Node.text "9:00"] ]

/-- One lift in the new 2-column markup shape. -/
def newShapeRow (nm st : String) : Node :=
  Node.tag "div" [("class", "lifts-row")]
    [ Node.tag "div" [("class", "column first title")] [Node.text nm],
      Node.tag "div" [("class", "column second status")]
        [ Node.tag "img" [("src", "icon-" ++ st ++ ".svg")] [] ] ]

/-- A document whose rows render the given lifts in the old shape. -/
def oldShapeDoc (lifts : List (String × String)) : Node :=
  Node.tag "div" [] (lifts.map fun p => oldShapeRow p.1 p.2)

/-- A document whose rows render the given lifts in the new shape. -/
def newShapeDoc (lifts : List (String × String)) : Node :=
  Node.tag "div" [] (lifts.map fun p => newShapeRow p.1 p.2)

/-- A row whose status icon URL does not match the `icon-(.+).svg` pattern. -/
def badIconRow : Node :=
  Node.tag "div" [("class", "lifts-row")]
    [ Node.tag "div" [("class", "column first title")] [Node.text "Bear"],
      Node.tag "div" [("class", "column second status")]
        [ Node.tag "img" [("src", "lift-photo.png")] [] ] ]

/-- A document with no `.lifts-row` elements. -/
def noRowsDoc : Node := Node.tag "html" [] []

/-! ## Helper lemmas -/

theorem selectClass_tag (cls nm : String) (ats : List (String × String))
    (ch : List Node) :
    selectClass cls (Node.tag nm ats ch) =
      (if hasClassToken ((Node.tag nm ats ch).classAttr) cls
        then [Node.tag nm ats ch] else []) ++ selectClassList cls ch := rfl

theorem selectClassList_cons (cls : String) (x : Node) (xs : List Node) :
    selectClassList cls (x :: xs) = selectClass cls x ++ selectClassList cls xs := rfl

theorem selectClass_oldShapeRow (nm st : String) :
    selectClass "lifts-row" (oldShapeRow nm st) = [oldShapeRow nm st] := rfl

theorem selectClass_newShapeRow (nm st : String) :
    selectClass "lifts-row" (newShapeRow nm st) = [newShapeRow nm st] := rfl

theorem selectClassList_map_old (lifts : List (String × String)) :
    selectClassList "lifts-row" (lifts.map fun p => oldShapeRow p.1 p.2) =
      lifts.map fun p => oldShapeRow p.1 p.2 := by
  induction lifts with
  | nil => rfl
  | cons a t ih =>
    simp only [List.map_cons, selectClassList_cons, selectClass_oldShapeRow, ih,
      List.singleton_append]

theorem selectClassList_map_new (lifts : List (String × String)) :
    selectClassList "lifts-row" (lifts.map fun p => newShapeRow p.1 p.2) =
      lifts.map fun p => newShapeRow p.1 p.2 := by
  induction lifts with
  | nil => rfl
  | cons a t ih =>
    simp only [List.map_cons, selectClassList_cons, selectClass_newShapeRow, ih,
      List.singleton_append]

theorem selectClass_oldShapeDoc (lifts : List (String × String)) :
    selectClass "lifts-row" (oldShapeDoc lifts) =
      lifts.map fun p => oldShapeRow p.1 p.2 := by
  rw [oldShapeDoc, selectClass_tag]
  rw [show hasClassToken ((Node.tag "div" []
    (lifts.map fun p => oldShapeRow p.1 p.2)).classAttr) "lifts-row" = false from rfl]
  simp only [if_neg Bool.false_ne_true, List.nil_append]
  exact selectClassList_map_old lifts

theorem selectClass_newShapeDoc (lifts : List (String × String)) :
    selectClass "lifts-row" (newShapeDoc lifts) =
      lifts.map fun p => newShapeRow p.1 p.2 := by
  rw [newShapeDoc, selectClass_tag]
  rw [show hasClassToken ((Node.tag "div" []
    (lifts.map fun p => newShapeRow p.1 p.2)).classAttr) "lifts-row" = false from rfl]
  simp only [if_neg Bool.false_ne_true, List.nil_append]
  exact selectClassList_map_new lifts

/-- The shape-sniffing loop extracts the same fields from a lift rendered in
either markup shape. -/
theorem extractRow_shape (nm st : String) :
    extractRow (oldShapeRow nm st) = extractRow (newShapeRow nm st) := rfl

theorem foldl_processRow_map_congr {α : Type} (f g : α → Node)
    (h : ∀ a acc, processRow acc (f a) = processRow acc (g a)) :
    ∀ (l : List α) (acc : List (String × String)),
      (l.map f).foldl processRow acc = (l.map g).foldl processRow acc := by
  intro l
  induction l with
  | nil => intro acc; rfl
  | cons a t ih =>
    intro acc
    simp only [List.map_cons, List.foldl_cons, h a acc, ih]

theorem lsInsert_map_fst_of_any (ls : List (String × String)) (k v : String)
    (h : ls.any (fun p => p.1 = k) = true) :
    (lsInsert ls k v).map Prod.fst = ls.map Prod.fst := by
  unfold lsInsert
  rw [if_pos h, List.map_map]
  apply List.map_congr_left
  intro p _
  by_cases hp : p.1 = k <;> simp [hp]

theorem lsInsert_map_fst_of_not_any (ls : List (String × String)) (k v : String)
    (h : ls.any (fun p => p.1 = k) = false) :
    (lsInsert ls k v).map Prod.fst = ls.map Prod.fst ++ [k] := by
  unfold lsInsert
  rw [if_neg (by simp [h]), List.map_append]
  rfl

theorem mem_fst_lsInsert_self (ls : List (String × String)) (k v : String) :
    k ∈ (lsInsert ls k v).map Prod.fst := by
  cases h : ls.any (fun p => p.1 = k) with
  | true =>
    rw [lsInsert_map_fst_of_any ls k v h]
    rcases List.any_eq_true.1 h with ⟨p, hp, hpk⟩
    have : p.1 = k := by simpa using hpk
    exact this ▸ List.mem_map_of_mem Prod.fst hp
  | false =>
    rw [lsInsert_map_fst_of_not_any ls k v h]
    exact List.mem_append_right _ (List.mem_singleton.2 rfl)

theorem mem_fst_lsInsert_of_mem (ls : List (String × String)) (k v a : String)
    (h : a ∈ ls.map Prod.fst) : a ∈ (lsInsert ls k v).map Prod.fst := by
  cases hc : ls.any (fun p => p.1 = k) with
  | true => rw [lsInsert_map_fst_of_any ls k v hc]; exact h
  | false => rw [lsInsert_map_fst_of_not_any ls k v hc]; exact List.mem_append_left _ h

theorem mem_fst_foldl_of_mem (rows : List Node) (ls : List (String × String))
    (a : String) (h : a ∈ ls.map Prod.fst) :
    a ∈ (rows.foldl processRow ls).map Prod.fst := by
  induction rows generalizing ls with
  | nil => exact h
  | cons r rows ih =>
    rw [List.foldl_cons]
    apply ih
    unfold processRow
    cases hx : extractRow r with
    | none => exact h
    | some p => exact mem_fst_lsInsert_of_mem ls p.1 p.2 a h

theorem mem_fst_foldl_processRow (rows : List Node) (ls : List (String × String))
    (r : Node) (n s : String) (hr : r ∈ rows) (hx : extractRow r = some (n, s)) :
    n ∈ (rows.foldl processRow ls).map Prod.fst := by
  induction rows generalizing ls with
  | nil => cases hr
  | cons a rows ih =>
    rw [List.foldl_cons]
    rcases List.mem_cons.1 hr with h | h
    · subst h
      apply mem_fst_foldl_of_mem
      unfold processRow
      rw [hx]
      exact mem_fst_lsInsert_self ls n s
    · exact ih _ h

/-- Under the hypotheses that the provided DOM has no `.lifts-row` elements
and the scheduler allows a fetch, `parse` runs the retrieval chain. -/
theorem parse_fetch_path (dom : Node) (st0 : FetchState) (env : Env)
    (hdom : selectClass "lifts-row" dom = [])
    (hfetch : shouldFetch env.now env.nyHour { st0 with lastRequestTime := env.now } = true) :
    parse dom st0 env = runFetch { st0 with lastRequestTime := env.now } env := by
  simp [parse, hdom, hfetch]

theorem getRandomInterval_lb (b : Bool) (r : ℚ) (hr0 : 0 ≤ r) :
    (if b then ACTIVE_MIN_INTERVAL else INACTIVE_MIN_INTERVAL) ≤ getRandomInterval b r := by
  cases b <;>
    · simp only [getRandomInterval, ACTIVE_MIN_INTERVAL, ACTIVE_MAX_INTERVAL,
        INACTIVE_MIN_INTERVAL, INACTIVE_MAX_INTERVAL, if_true, if_false, Bool.false_eq_true]
      nlinarith

theorem getRandomInterval_ub (b : Bool) (r : ℚ) (hr1 : r < 1) :
    getRandomInterval b r ≤ (if b then ACTIVE_MAX_INTERVAL else INACTIVE_MAX_INTERVAL) := by
  cases b <;>
    · simp only [getRandomInterval, ACTIVE_MIN_INTERVAL, ACTIVE_MAX_INTERVAL,
        INACTIVE_MIN_INTERVAL, INACTIVE_MAX_INTERVAL, if_true, if_false, Bool.false_eq_true]
      nlinarith

/-! ## Concrete fixtures for witnesses and counterexamples -/

def stW : FetchState :=
  { lastFetchTime := 0, lastRequestTime := 0,
    cachedStatus := [("Lookout", "open")], nextFetchInterval := 1800000 }

def envFail : Env :=
  { now := 1000, nyHour := 12,
    event := FetchEvent.resolved PuppeteerOutcome.waitTimeout,
    endTime := 2000, r := 1 / 2 }

def envSuccEmpty : Env :=
  { now := 1000, nyHour := 12,
    event := FetchEvent.resolved (PuppeteerOutcome.content noRowsDoc),
    endTime := 2000, r := 0 }

def c7Doc : Node := newShapeDoc [("Lookout", "open")]

def stC7 : FetchState :=
  { lastFetchTime := 0, lastRequestTime := 0, cachedStatus := [],
    nextFetchInterval := 1800000 }

def envC7 : Env :=
  { now := 12345, nyHour := 12, event := FetchEvent.thrown, endTime := 0, r := 0 }

def stC5 : FetchState :=
  { lastFetchTime := 1000000, lastRequestTime := 0, cachedStatus := [],
    nextFetchInterval := 650000 }

def envC5a : Env :=
  { now := 1600000, nyHour := 12, event := FetchEvent.thrown,
    endTime := 1600500, r := 0 }

def envC5b : Env :=
  { now := 2200000, nyHour := 12,
    event := FetchEvent.resolved PuppeteerOutcome.launchFailure,
    endTime := 2201000, r := 0 }

def goodRowC9 : Node := newShapeRow "Lookout" "open"

def c9Doc : Node := Node.tag "div" [] [goodRowC9, badIconRow]

/-- The scheduler state after the first counterexample query of the
activity-tier trace. -/
def stC5mid : FetchState :=
  { lastFetchTime := 1000000, lastRequestTime := 1600000, cachedStatus := [],
    nextFetchInterval := 650000 }

/-! ## Claims -/

/-- Claim C1: for every scheduler state in which no fetch has ever been
attempted (`lastFetchTime = 0`), `shouldFetch` returns true, regardless of
the operating-hours window (`nyHour`) and of recent caller activity
(`lastRequestTime`, `now`). -/
theorem shouldFetchFirstCall (now nyHour : ℚ) (st : FetchState)
    (h : st.lastFetchTime = 0) : shouldFetch now nyHour st = true := by
  simp [shouldFetch, h]

/-- Witness for C1: a freshly initialized state allows the fetch even at a
civil hour far outside operating hours. -/
theorem shouldFetchFirstCall_witness :
    (initialState 0).lastFetchTime = 0 ∧ shouldFetch 5 99 (initialState 0) = true :=
  ⟨rfl, shouldFetchFirstCall 5 99 (initialState 0) rfl⟩

/-- Claim C3: with a prior fetch attempt recorded (`lastFetchTime ≠ 0`),
`shouldFetch` returns false whenever `now - lastFetchTime` is below the
randomized backoff interval. -/
theorem shouldFetchRateLimited (now nyHour : ℚ) (st : FetchState)
    (h0 : st.lastFetchTime ≠ 0)
    (h1 : now - st.lastFetchTime < st.nextFetchInterval) :
    shouldFetch now nyHour st = false := by
  simp [shouldFetch, h0, h1]

/-- Witness for C3: 100 ms after a fetch, with a 30-minute interval pending,
the fetch is disallowed even during operating hours. -/
theorem shouldFetchRateLimited_witness :
    ((200 : ℚ) - 100 < 1800000) ∧
    shouldFetch 200 12
      { lastFetchTime := 100, lastRequestTime := 0, cachedStatus := [],
        nextFetchInterval := 1800000 } = false :=
  ⟨by norm_num, shouldFetchRateLimited 200 12 _ (by norm_num) (by norm_num)⟩

/-- Claim C6: with a prior fetch recorded and the backoff window elapsed,
`shouldFetch` returns false whenever the civil New York hour is before the
open hour or at/after the close hour. -/
theorem shouldFetchOutsideHours (now nyHour : ℚ) (st : FetchState)
    (h0 : st.lastFetchTime ≠ 0)
    (h1 : st.nextFetchInterval ≤ now - st.lastFetchTime)
    (h2 : nyHour < OPEN_HOUR ∨ CLOSE_HOUR ≤ nyHour) :
    shouldFetch now nyHour st = false := by
  have hw : isWithinOperatingHours nyHour = false := by
    rcases h2 with h | h
    · simp [isWithinOperatingHours, not_le.2 h]
    · simp [isWithinOperatingHours, not_lt.2 h]
  simp [shouldFetch, h0, not_lt.2 h1, hw]

/-- Witness for C6: backoff long elapsed, but the New York civil hour is 6
(before the 7.75 open hour), so the fetch is disallowed. -/
theorem shouldFetchOutsideHours_witness :
    ((6 : ℚ) < OPEN_HOUR) ∧
    shouldFetch 1000000 6
      { lastFetchTime := 100, lastRequestTime := 0, cachedStatus := [],
        nextFetchInterval := 300000 } = false :=
  ⟨by norm_num [OPEN_HOUR],
    shouldFetchOutsideHours 1000000 6 _ (by norm_num) (by norm_num)
      (Or.inl (by norm_num [OPEN_HOUR]))⟩

/-- Claim C2: for every failure of the retrieval attempt — browser launch
failure, navigation error, landmark wait timeout, a thrown exception in the
promise chain (index.js), or a non-2xx HTTP status / transport exception
(the part_000 revision's `fetchWithChromeUA`) — the value delivered to the
caller equals the cache's value from immediately before the attempt, the
cache is left unchanged, and no error is surfaced (the error-first slot is
`null`; the promise resolves with a value). -/
theorem failureServesCache
    (dom : Node) (st0 : FetchState) (env : Env)
    (stv : FetchStateV0) (ev : HttpEvent) (t r : ℚ)
    (collect : Node → List (String × String))
    (hdom : selectClass "lifts-row" dom = [])
    (hfetch : shouldFetch env.now env.nyHour { st0 with lastRequestTime := env.now } = true)
    (hfail : env.event = FetchEvent.thrown ∨
        ∃ o, env.event = FetchEvent.resolved o ∧ fetchWithPuppeteer o = none)
    (hevfail : ∀ status d, ev = HttpEvent.response status d → status < 200 ∨ 300 ≤ status) :
    (parse dom st0 env).value = st0.cachedStatus ∧
    (parse dom st0 env).state.cachedStatus = st0.cachedStatus ∧
    (fetchWithChromeUA stv ev t r collect).1.err = none ∧
    (fetchWithChromeUA stv ev t r collect).1.value = stv.cachedStatus ∧
    (fetchWithChromeUA stv ev t r collect).2.cachedStatus = stv.cachedStatus := by
  have hp := parse_fetch_path dom st0 env hdom hfetch
  have hmain : (parse dom st0 env).value = st0.cachedStatus ∧
      (parse dom st0 env).state.cachedStatus = st0.cachedStatus := by
    rw [hp]
    rcases hfail with hev | ⟨o, hev, hnone⟩
    · simp [runFetch, hev, catchHandler]
    · simp [runFetch, hev, hnone, thenHandler]
  have hv0 : (fetchWithChromeUA stv ev t r collect).1.err = none ∧
      (fetchWithChromeUA stv ev t r collect).1.value = stv.cachedStatus ∧
      (fetchWithChromeUA stv ev t r collect).2.cachedStatus = stv.cachedStatus := by
    cases ev with
    | response status d =>
      have hbad := hevfail status d rfl
      simp [fetchWithChromeUA, if_pos hbad]
    | exception => simp [fetchWithChromeUA]
  exact ⟨hmain.1, hmain.2, hv0.1, hv0.2.1, hv0.2.2⟩

/-- State fixture for the part_000 revision. -/
def stV0W : FetchStateV0 :=
  { lastFetchTime := 0, cachedStatus := [("Lookout", "open")], nextFetchInterval := 600000 }

/-- Witness for C2: a landmark wait timeout on the index.js path and a
transport exception on the part_000 path both serve the pre-attempt cache. -/
theorem failureServesCache_witness :
    selectClass "lifts-row" noRowsDoc = [] ∧
    (parse noRowsDoc stW envFail).value = stW.cachedStatus ∧
    (fetchWithChromeUA stV0W HttpEvent.exception 2000 0 (fun _ => [])).1.value
      = [("Lookout", "open")] := by
  have h := failureServesCache noRowsDoc stW envFail
    stV0W HttpEvent.exception 2000 0 (fun _ => []) rfl
    (by simp [shouldFetch, stW, envFail])
    (Or.inr ⟨PuppeteerOutcome.waitTimeout, rfl, rfl⟩)
    (fun status d hcontra => HttpEvent.noConfusion hcontra)
  exact ⟨rfl, h.1, h.2.2.2.1⟩

/-- Claim C4: after every completed fetch attempt — success, absorbed
failure (`null` html), or exception — `nextFetchInterval` equals a fresh
draw `getRandomInterval act r` for the activity tier `act` computed at that
moment, and that draw lies within the `[min, max]` bounds pair of the tier
(5-15 minutes when active, 30-60 minutes when inactive); nothing of the
prior cycle's interval survives. -/
theorem intervalRedrawnWithinBounds (dom : Node) (st0 : FetchState) (env : Env)
    (hdom : selectClass "lifts-row" dom = [])
    (hfetch : shouldFetch env.now env.nyHour { st0 with lastRequestTime := env.now } = true)
    (hr0 : 0 ≤ env.r) (hr1 : env.r < 1) :
    ((parse dom st0 env).state.nextFetchInterval
        = getRandomInterval (isUserActive env.endTime { st0 with lastRequestTime := env.now }) env.r)
    ∧ (isUserActive env.endTime { st0 with lastRequestTime := env.now } = true →
        ACTIVE_MIN_INTERVAL ≤ (parse dom st0 env).state.nextFetchInterval ∧
        (parse dom st0 env).state.nextFetchInterval ≤ ACTIVE_MAX_INTERVAL)
    ∧ (isUserActive env.endTime { st0 with lastRequestTime := env.now } = false →
        INACTIVE_MIN_INTERVAL ≤ (parse dom st0 env).state.nextFetchInterval ∧
        (parse dom st0 env).state.nextFetchInterval ≤ INACTIVE_MAX_INTERVAL) := by
  have hp := parse_fetch_path dom st0 env hdom hfetch
  have hmain : (parse dom st0 env).state.nextFetchInterval
      = getRandomInterval (isUserActive env.endTime { st0 with lastRequestTime := env.now }) env.r := by
    rw [hp]
    cases hev : env.event with
    | resolved o => cases o <;> simp [runFetch, hev, thenHandler, fetchWithPuppeteer]
    | thrown => simp [runFetch, hev, catchHandler]
  refine ⟨hmain, ?_, ?_⟩
  · intro hb
    rw [hmain, hb]
    exact ⟨by simpa using getRandomInterval_lb true env.r hr0,
      by simpa using getRandomInterval_ub true env.r hr1⟩
  · intro hb
    rw [hmain, hb]
    exact ⟨by simpa using getRandomInterval_lb false env.r hr0,
      by simpa using getRandomInterval_ub false env.r hr1⟩

/-- Witness for C4: after an absorbed failure the interval is the fresh
active-tier draw `5min + (1/2) * 10min` and lies within the 5-15 minute
bounds. -/
theorem intervalRedrawnWithinBounds_witness :
    isUserActive envFail.endTime { stW with lastRequestTime := envFail.now } = true ∧
    (parse noRowsDoc stW envFail).state.nextFetchInterval
      = getRandomInterval (isUserActive envFail.endTime { stW with lastRequestTime := envFail.now }) envFail.r ∧
    ACTIVE_MIN_INTERVAL ≤ (parse noRowsDoc stW envFail).state.nextFetchInterval ∧
    (parse noRowsDoc stW envFail).state.nextFetchInterval ≤ ACTIVE_MAX_INTERVAL := by
  have hact : isUserActive envFail.endTime { stW with lastRequestTime := envFail.now } = true := by
    norm_num [isUserActive, ACTIVITY_THRESHOLD, stW, envFail]
  have h := intervalRedrawnWithinBounds noRowsDoc stW envFail rfl
    (by simp [shouldFetch, stW, envFail])
    (by norm_num [envFail]) (by norm_num [envFail])
  exact ⟨hact, h.1, (h.2.1 hact).1, (h.2.1 hact).2⟩

/-- Counterexample to C5 as stated: two consecutive inbound queries arrive
10 minutes apart (at/above the 5-minute activity threshold, so the claim
predicts the loose 30-60 minute pair for the next draw); the second query
triggers a fetch completing one second later, and the code draws the next
interval from the tight pair (with the `r = 0` draw it equals the 5-minute
active minimum, below the loose pair's minimum). The tier is decided by the
fetch-completion clock against `lastRequestTime` — already overwritten by
the triggering query itself — not by the inter-query gap. -/
theorem activityTierGapClaimFalse :
    ACTIVITY_THRESHOLD ≤ envC5b.now - envC5a.now ∧
    (parse noRowsDoc stC5 envC5a).fetched = false ∧
    (parse noRowsDoc ((parse noRowsDoc stC5 envC5a).state) envC5b).fetched = true ∧
    (parse noRowsDoc ((parse noRowsDoc stC5 envC5a).state) envC5b).state.nextFetchInterval
      = ACTIVE_MIN_INTERVAL ∧
    ¬ (INACTIVE_MIN_INTERVAL ≤
        (parse noRowsDoc ((parse noRowsDoc stC5 envC5a).state) envC5b).state.nextFetchInterval) := by
  have hd : selectClass "lifts-row" noRowsDoc = [] := rfl
  have h1 : shouldFetch envC5a.now envC5a.nyHour { stC5 with lastRequestTime := envC5a.now } = false := by
    norm_num [shouldFetch, stC5, envC5a]
  have hfetched1 : (parse noRowsDoc stC5 envC5a).fetched = false := by
    simp [parse, hd, h1]
  have hstate1 : (parse noRowsDoc stC5 envC5a).state = stC5mid := by
    simp only [parse, hd, List.length_nil, Nat.lt_irrefl, if_false, h1,
      Bool.not_false, if_true]
    rfl
  have h2 : shouldFetch envC5b.now envC5b.nyHour
      { stC5mid with lastRequestTime := envC5b.now } = true := by
    norm_num [shouldFetch, isWithinOperatingHours, OPEN_HOUR, CLOSE_HOUR, stC5mid, envC5b]
  have hp2 := parse_fetch_path noRowsDoc stC5mid envC5b hd h2
  have hact : isUserActive envC5b.endTime { stC5mid with lastRequestTime := envC5b.now } = true := by
    rw [isUserActive]
    exact decide_eq_true (by norm_num [ACTIVITY_THRESHOLD, stC5mid, envC5b])
  have hint : (parse noRowsDoc stC5mid envC5b).state.nextFetchInterval = ACTIVE_MIN_INTERVAL := by
    rw [hp2]
    simp only [runFetch,
      show envC5b.event = FetchEvent.resolved PuppeteerOutcome.launchFailure from rfl,
      thenHandler, fetchWithPuppeteer, hact]
    norm_num [getRandomInterval, ACTIVE_MIN_INTERVAL, ACTIVE_MAX_INTERVAL, envC5b]
  have hfetched2 : (parse noRowsDoc stC5mid envC5b).fetched = true := by
    rw [hp2]
    simp [runFetch,
      show envC5b.event = FetchEvent.resolved PuppeteerOutcome.launchFailure from rfl,
      thenHandler, fetchWithPuppeteer]
  refine ⟨by norm_num [ACTIVITY_THRESHOLD, envC5a, envC5b], hfetched1, ?_, ?_, ?_⟩
  · rw [hstate1]; exact hfetched2
  · rw [hstate1]; exact hint
  · rw [hstate1, hint]
    norm_num [ACTIVE_MIN_INTERVAL, INACTIVE_MIN_INTERVAL]

/-- Claim C5 as amended: the activity tier used for the next backoff draw is
determined by the gap between the fetch-completion clock reading and the
most recent inbound query — which includes the triggering query itself,
since `parse` overwrites `lastRequestTime` on entry: the tight bounds pair
is used exactly when the fetch completes within the 5-minute threshold of
the query's arrival, the loose pair otherwise. -/
theorem activityTierFromCompletionGap (dom : Node) (st0 : FetchState) (env : Env)
    (hdom : selectClass "lifts-row" dom = [])
    (hfetch : shouldFetch env.now env.nyHour { st0 with lastRequestTime := env.now } = true) :
    (parse dom st0 env).state.nextFetchInterval
      = getRandomInterval (decide (env.endTime - env.now < ACTIVITY_THRESHOLD)) env.r := by
  rw [parse_fetch_path dom st0 env hdom hfetch]
  have hact : isUserActive env.endTime { st0 with lastRequestTime := env.now }
      = decide (env.endTime - env.now < ACTIVITY_THRESHOLD) := by
    simp [isUserActive]
  cases hev : env.event with
  | resolved o =>
    cases o <;> simp [runFetch, hev, thenHandler, fetchWithPuppeteer, hact]
  | thrown => simp [runFetch, hev, catchHandler, hact]

/-- Witness for the amended C5: the fetch completes one second after the
triggering query, so the draw uses the tight tier. -/
theorem activityTierFromCompletionGap_witness :
    selectClass "lifts-row" noRowsDoc = [] ∧
    (parse noRowsDoc stW envFail).state.nextFetchInterval
      = getRandomInterval (decide (envFail.endTime - envFail.now < ACTIVITY_THRESHOLD)) envFail.r :=
  ⟨rfl, activityTierFromCompletionGap noRowsDoc stW envFail rfl
    (by simp [shouldFetch, stW, envFail])⟩

/-- Counterexample to C7 as stated: on the synchronous path (a document that
already contains `.lifts-row` elements) the module still mutates the
scheduler state: `lastRequestTime` is overwritten with the query's clock
reading (index.js line 144 runs before the row check). -/
theorem syncPathMutatesRequestTime :
    0 < (selectClass "lifts-row" c7Doc).length ∧
    stC7.lastRequestTime = 0 ∧
    (parse c7Doc stC7 envC7).state.lastRequestTime = 12345 ∧
    (parse c7Doc stC7 envC7).state.lastRequestTime ≠ stC7.lastRequestTime := by
  have hlen : 0 < (selectClass "lifts-row" c7Doc).length := by decide
  have hp : parse c7Doc stC7 envC7 =
      { value := parseLifts c7Doc, state := { stC7 with lastRequestTime := envC7.now },
        fetched := false } := by
    simp [parse, hlen]
  refine ⟨hlen, rfl, ?_, ?_⟩
  · rw [hp]; norm_num [envC7, stC7]
  · rw [hp]; norm_num [envC7, stC7]

/-- Claim C7 as amended: for a document with extractable rows, `parse`
returns `parseLifts dom` (a pure function of the document), performs no
retrieval, and leaves `lastFetchTime`, `nextFetchInterval` and
`cachedStatus` unchanged; `lastRequestTime`, however, is set to the query's
clock reading. Repeated calls with the same document yield the same value. -/
theorem syncPathPureExceptRequestTime (dom : Node) (st0 : FetchState) (env env2 : Env)
    (h : 0 < (selectClass "lifts-row" dom).length) :
    (parse dom st0 env).value = parseLifts dom ∧
    (parse dom st0 env).fetched = false ∧
    (parse dom st0 env).state.lastFetchTime = st0.lastFetchTime ∧
    (parse dom st0 env).state.nextFetchInterval = st0.nextFetchInterval ∧
    (parse dom st0 env).state.cachedStatus = st0.cachedStatus ∧
    (parse dom st0 env).state.lastRequestTime = env.now ∧
    (parse dom ((parse dom st0 env).state) env2).value = (parse dom st0 env).value := by
  have hp : ∀ st : FetchState, parse dom st env =
      { value := parseLifts dom, state := { st with lastRequestTime := env.now },
        fetched := false } := fun st => by simp [parse, h]
  have hp2 : ∀ st : FetchState, parse dom st env2 =
      { value := parseLifts dom, state := { st with lastRequestTime := env2.now },
        fetched := false } := fun st => by simp [parse, h]
  rw [hp st0, hp2]
  exact ⟨rfl, rfl, rfl, rfl, rfl, rfl, rfl⟩

/-- Witness for the amended C7: the synchronous path returns the extraction
of the provided document and does not touch the cache. -/
theorem syncPathPureExceptRequestTime_witness :
    0 < (selectClass "lifts-row" c7Doc).length ∧
    (parse c7Doc stC7 envC7).value = parseLifts c7Doc ∧
    (parse c7Doc stC7 envC7).state.cachedStatus = stC7.cachedStatus :=
  ⟨by decide, (syncPathPureExceptRequestTime c7Doc stC7 envC7 envC7 (by decide)).1,
    (syncPathPureExceptRequestTime c7Doc stC7 envC7 envC7 (by decide)).2.2.2.2.1⟩

/-- Claim C8: a document rendering any list of lifts in the old rule-based
4-column shape and the document rendering the same lifts in the new
2-column shape extract to the identical status map, through the single
shape-sniffing pass of `parseLifts` (no version flag); on the spec's example
both shapes extract to `Lookout ↦ open, Cloudspin ↦ hold`. -/
theorem shapeTolerance (lifts : List (String × String)) :
    parseLifts (oldShapeDoc lifts) = parseLifts (newShapeDoc lifts) ∧
    parseLifts (oldShapeDoc [("Lookout", "open"), ("Cloudspin", "hold")])
      = [("Lookout", "open"), ("Cloudspin", "hold")] ∧
    parseLifts (newShapeDoc [("Lookout", "open"), ("Cloudspin", "hold")])
      = [("Lookout", "open"), ("Cloudspin", "hold")] := by
  refine ⟨?_, by decide, by decide⟩
  unfold parseLifts
  rw [selectClass_oldShapeDoc, selectClass_newShapeDoc]
  exact foldl_processRow_map_congr _ _
    (fun a acc => by unfold processRow; rw [extractRow_shape]) lifts []

/-- Claim C9: a row whose status icon URL does not match the
`icon-(.+).svg` pattern (or whose name/status field is missing) is omitted
from the status map — extraction proceeds as if the row were absent — while
every well-formed row of the same document still contributes its name. -/
theorem badRowOmitted (dom : Node) (pre post : List Node) (bad : Node)
    (hrows : selectClass "lifts-row" dom = pre ++ bad :: post)
    (hbad : extractRow bad = none) :
    parseLifts dom = (pre ++ post).foldl processRow [] ∧
    (∀ r ∈ pre ++ post, ∀ n s, extractRow r = some (n, s) →
        n ∈ (parseLifts dom).map Prod.fst) := by
  constructor
  · unfold parseLifts
    rw [hrows, List.foldl_append, List.foldl_append, List.foldl_cons]
    rw [show processRow (pre.foldl processRow []) bad = pre.foldl processRow []
      from by unfold processRow; rw [hbad]]
  · intro r hr n s hx
    unfold parseLifts
    rw [hrows]
    apply mem_fst_foldl_processRow _ _ r n s _ hx
    rcases List.mem_append.1 hr with h | h
    · exact List.mem_append.2 (Or.inl h)
    · exact List.mem_append.2 (Or.inr (List.mem_cons_of_mem _ h))

/-- Witness for C9: a document with a well-formed row and a row whose icon
URL is `lift-photo.png`; the bad row is dropped, the good row is kept. -/
theorem badRowOmitted_witness :
    selectClass "lifts-row" c9Doc = [goodRowC9] ++ badIconRow :: [] ∧
    extractRow badIconRow = none ∧
    parseLifts c9Doc = ([goodRowC9] ++ ([] : List Node)).foldl processRow [] ∧
    parseLifts c9Doc = [("Lookout", "open")] :=
  ⟨rfl, rfl,
    (badRowOmitted c9Doc [goodRowC9] [] badIconRow rfl rfl).1,
    by decide⟩

/-- Claim C10: when the retrieval succeeds but extraction of the fetched
page yields zero pairs, the cache is overwritten wholesale with the empty
status map and the empty map is returned — a previously non-empty cache is
reset. -/
theorem emptySuccessOverwritesCache (dom htmlDom : Node) (st0 : FetchState) (env : Env)
    (hdom : selectClass "lifts-row" dom = [])
    (hfetch : shouldFetch env.now env.nyHour { st0 with lastRequestTime := env.now } = true)
    (hev : env.event = FetchEvent.resolved (PuppeteerOutcome.content htmlDom))
    (hempty : parseLifts htmlDom = []) :
    (parse dom st0 env).state.cachedStatus = [] ∧
    (parse dom st0 env).value = [] := by
  rw [parse_fetch_path dom st0 env hdom hfetch]
  simp [runFetch, hev, thenHandler, fetchWithPuppeteer, hempty]

/-- Witness for C10: a successful fetch of a page with no rows resets the
previously non-empty cache `[(Lookout, open)]` to the empty map. -/
theorem emptySuccessOverwritesCache_witness :
    stW.cachedStatus = [("Lookout", "open")] ∧
    (parse noRowsDoc stW envSuccEmpty).state.cachedStatus = [] ∧
    (parse noRowsDoc stW envSuccEmpty).value = [] := by
  have h := emptySuccessOverwritesCache noRowsDoc noRowsDoc stW envSuccEmpty rfl
    (by simp [shouldFetch, stW, envSuccEmpty]) rfl rfl
  exact ⟨rfl, h.1, h.2⟩

end Liftie
